import Mathlib

/-!
Shallow embedding of the `node-couchdb-client` repository
(`src/couchdb.ts`: class `CouchDb`; the unnamed near-duplicate
`CouchDBAdmin` implementations; the options interfaces).

JavaScript conventions used throughout the embedding:
* `undefined`-able values are `Option`s (`none` = absent/`undefined`);
* a JS object (string-keyed mapping) is an association list whose lookup
  returns the value of the LAST assignment of a key (`Object.assign`
  appends the overriding entries, later entries win);
* JS falsiness of a string is `undefined`-or-`""`; of a number it is
  `undefined`-or-`0`;
* all strings handled by the claims are ASCII, so percent-encoding is
  modelled on code points below 128.
-/

/-- JS property read `obj[k]` on a numeric-keyed object built by successive
assignments: the last assignment of `k` wins. -/
def objGet (l : List (Nat × String)) (k : Nat) : Option String :=
  (l.reverse.find? (fun p => p.1 == k)).map (·.2)

/-- JS property read `obj[k]` on a string-keyed object. -/
def strObjGet (l : List (String × String)) (k : String) : Option String :=
  (l.reverse.find? (fun p => p.1 == k)).map (·.2)

/-- JS `a || b` on possibly-`undefined` strings: `a` unless `a` is falsy
(`undefined` or `""`). -/
def jsOrStr (a b : Option String) : Option String :=
  match a with
  | none => b
  | some s => if s = "" then b else some s

/-- JS `a || d` with a string default. -/
def jsOrStrD (a : Option String) (d : String) : String :=
  match a with
  | none => d
  | some s => if s = "" then d else s

/-- JS `a || d` on possibly-`undefined` numbers: falsy means `undefined` or `0`. -/
def jsOrNatD (a : Option Nat) (d : Nat) : Nat :=
  match a with
  | none => d
  | some n => if n = 0 then d else n

/-- An uppercase hexadecimal digit, as used by `encodeURIComponent`. -/
def hexDigit (n : Nat) : Char :=
  if n < 10 then Char.ofNat (48 + n) else Char.ofNat (55 + n)

/-- `%XX` percent-escape of an ASCII code point. -/
def percentEscape (n : Nat) : String :=
  String.mk ['%', hexDigit (n / 16), hexDigit (n % 16)]

/-- Characters `encodeURIComponent` leaves unescaped:
`A-Z a-z 0-9 - _ . ! ~ * ' ( )`. -/
def encodeURIComponentKeeps (c : Char) : Bool :=
  c.isAlphanum || c = '-' || c = '_' || c = '.' || c = '!' || c = '~' ||
    c = '*' || c = Char.ofNat 39 || c = '(' || c = ')'

/-- `encodeURIComponent`, on ASCII input. -/
def encodeURIComponent (s : String) : String :=
  String.join (s.data.map fun c =>
    if encodeURIComponentKeeps c then String.singleton c else percentEscape c.toNat)

/-- The `strict-uri-encode` package used by `query-string`:
`encodeURIComponent` that additionally escapes `! ' ( ) *`, so only
`A-Z a-z 0-9 - _ . ~` survive. -/
def strictUriEncodeKeeps (c : Char) : Bool :=
  c.isAlphanum || c = '-' || c = '_' || c = '.' || c = '~'

/-- `strict-uri-encode`, on ASCII input. -/
def strictUriEncode (s : String) : String :=
  String.join (s.data.map fun c =>
    if strictUriEncodeKeeps c then String.singleton c else percentEscape c.toNat)

/-- A query-object value: either a plain string or an array of strings
(the two shapes the claims exercise). -/
inductive QVal where
  | str (s : String)
  | arr (xs : List String)
deriving DecidableEq, Repr

/-- A JS query object, as an association list. -/
def QueryObj : Type := List (String × QVal)

/-- JSON string escaping (quote and backslash; the claims use no control
characters). -/
def jsonEscapeChar (c : Char) : String :=
  if c = '"' then "\\\"" else if c = '\\' then "\\\\" else String.singleton c

/-- `JSON.stringify` of a string. -/
def jsonStringifyStr (s : String) : String :=
  "\"" ++ String.join (s.data.map jsonEscapeChar) ++ "\""

/-- `JSON.stringify` of a query-object value. -/
def jsonStringifyQVal : QVal → String
  | .str s => jsonStringifyStr s
  | .arr xs => "[" ++ String.intercalate "," (xs.map jsonStringifyStr) ++ "]"

/-- JS string comparison `s < t`: lexicographic on UTF-16 code units
(code points suffice on ASCII input). -/
def jsStrLt : List Char → List Char → Bool
  | [], [] => false
  | [], _ :: _ => true
  | _ :: _, [] => false
  | a :: as, b :: bs =>
    if a.toNat < b.toNat then true
    else if b.toNat < a.toNat then false
    else jsStrLt as bs

/-- Insert an entry into a key-sorted association list (JS
`Array.prototype.sort` order on keys). -/
def insertByKey (p : String × QVal) : List (String × QVal) → List (String × QVal)
  | [] => [p]
  | q :: rest =>
    if jsStrLt q.1.data p.1.data then q :: insertByKey p rest else p :: q :: rest

/-- `Object.keys(obj).sort()` order applied to the whole object. -/
def sortByKey (l : List (String × QVal)) : List (String × QVal) :=
  l.foldr insertByKey []

/-- One `key=value` fragment of `query-string`'s `stringify` (default
`arrayFormat`: an array value repeats the key once per element). -/
def qsPair (k : String) (v : QVal) : String :=
  match v with
  | .str s => strictUriEncode k ++ "=" ++ strictUriEncode s
  | .arr xs =>
    String.intercalate "&" (xs.map fun x => strictUriEncode k ++ "=" ++ strictUriEncode x)

/-- `querystring.stringify` of the `query-string` package: keys sorted,
strict URI encoding, empty fragments dropped. -/
def qsStringify (q : QueryObj) : String :=
  String.intercalate "&"
    (((sortByKey q).map (fun p => qsPair p.1 p.2)).filter (fun s => s.length != 0))

/-- Node's `http.STATUS_CODES` table (an external dependency of the source;
representative subset — the status-resolution claim quantifies over the
built-in table, so no theorem depends on its exact contents). -/
def STATUS_CODES : List (Nat × String) :=
  [(200, "OK"), (201, "Created"), (202, "Accepted"), (304, "Not Modified"),
   (400, "Bad Request"), (401, "Unauthorized"), (403, "Forbidden"),
   (404, "Not Found"), (409, "Conflict"), (412, "Precondition Failed"),
   (417, "Expectation Failed"), (500, "Internal Server Error")]

/-- `CouchDb.statusCode` / `CouchDBAdmin.statusCode` with the built-in table
abstracted: `Object.assign({}, T1, T2)` lays the entries of `T1` down and
then those of `T2` over them (later assignment of a key wins), and
`codes[status] || 'unknown status'` falls back both when the key is absent
and when the stored message is the (falsy) empty string; an `undefined`
status indexes to `undefined`. -/
def statusCodeWith (T1 T2 : List (Nat × String)) (s : Option Nat) : String :=
  let codes := T1 ++ T2
  match s with
  | none => "unknown status"
  | some n =>
    match objGet codes n with
    | none => "unknown status"
    | some m => if m = "" then "unknown status" else m

/-- The two classes' `statusCode` method proper: the per-call `statusCodes`
may be `undefined` (`Object.assign({}, T1, undefined)` copies only `T1`). -/
def statusCode (statusCodes : Option (List (Nat × String))) (s : Option Nat) : String :=
  statusCodeWith STATUS_CODES (statusCodes.getD []) s

/-- `CouchDbOptions.Connection` / `CouchDbOptions.connection`. -/
structure Connection where
  host : Option String := none
  port : Option Nat := none
  auth : Option (String × String) := none
  logging : Option Bool := none
  defaultDatabase : Option String := none
deriving DecidableEq

/-- The constructed client state (the classes' private fields). -/
structure Client where
  host : String
  port : Nat
  auth : Option (String × String)
  logging : Bool
  defaultDatabase : Option String
deriving DecidableEq

/-- `CouchDb`'s constructor (`src/couchdb.ts` lines 15–21). -/
def CouchDb.init (options : Connection) : Client :=
  { host := jsOrStrD options.host "http://127.0.0.1"
    port := jsOrNatD options.port 5984
    auth := options.auth
    logging := options.logging.getD false
    defaultDatabase := options.defaultDatabase }

/-- `CouchDBAdmin`'s constructor (`src/unnamed/part_003` lines 14–19): in
`this.port = options.port = 5984` the inner assignment expression evaluates
to `5984`, so the configured port is `5984` regardless of the caller-supplied
port. This class has no `defaultDatabase` field. -/
def CouchDBAdmin.init (options : Connection) : Client :=
  { host := jsOrStrD options.host "http://127.0.0.1"
    port := 5984
    auth := options.auth
    logging := options.logging.getD false
    defaultDatabase := none }

/-- The second `CouchDBAdmin` constructor (`src/unnamed/part_004` lines
9–13), with the same `this.port = options.port = 5984` pattern; this class
has no `logging` or `defaultDatabase` fields. -/
def CouchDBAdminAlt.init (options : Connection) : Client :=
  { host := jsOrStrD options.host "http://127.0.0.1"
    port := 5984
    auth := options.auth
    logging := false
    defaultDatabase := none }

/-- The caller-side request descriptor (the `CouchDbOptions.RequestOptions`
fields consumed by `CouchDb.request`). -/
structure RequestOptions where
  path : Option String := none
  method : Option String := none
  postData : Option String := none
  headers : Option (List (String × String)) := none
  statusCodes : Option (List (Nat × String)) := none
deriving DecidableEq

/-- The fully built outbound request (the `requestOptions` value handed to
the transport). -/
structure BuiltRequest where
  uri : String
  method : String
  headers : List (String × String)
  body : Option String
  auth : Option (String × String)
deriving DecidableEq

/-- The `headers` of `defaultRequestOptions`. -/
def defaultHeaders : List (String × String) :=
  [("user-agent", "couchdb-promises"), ("accept", "application/json")]

/-- The guard `options.headers && options.headers.length > 0`: a property
read of `length` on a plain headers object (`undefined` unless the caller
literally supplied a `length` key), then JS `> 0` (a non-numeric value
compares false). -/
def headersLengthPositive (headers : Option (List (String × String))) : Bool :=
  match headers with
  | none => false
  | some h =>
    match strObjGet h "length" with
    | none => false
    | some v =>
      match v.toNat? with
      | none => false
      | some n => decide (0 < n)

/-- The request-building half of `CouchDb.request` (lines 54–63; the
`CouchDBAdmin.request` body in `part_003` is identical): the method defaults
to GET, `requestOptions.uri += `/${options.path}`` appends the path — an
absent `path` interpolates as the string `"undefined"` — the body is
attached, and the caller headers are merged over the defaults only when the
`length` guard passes. -/
def CouchDb.buildRequest (c : Client) (options : RequestOptions) : BuiltRequest :=
  { uri := c.host ++ ":" ++ toString c.port ++ "/" ++ options.path.getD "undefined"
    method := jsOrStrD options.method "GET"
    headers :=
      if headersLengthPositive options.headers then defaultHeaders ++ options.headers.getD []
      else defaultHeaders
    body := options.postData
    auth := c.auth }

/-- The raw value a transport failure carries (`request-promise` rejects
with an error object bearing an optional `statusCode`; `tag` keeps distinct
errors distinct). -/
structure RawError where
  statusCode : Option Nat := none
  tag : String := ""
deriving DecidableEq

/-- A transport-level response (`resolveWithFullResponse: true`). -/
structure TransportResponse where
  statusCode : Nat
  body : String
deriving DecidableEq

/-- How one transport invocation behaves: throw synchronously, resolve, or
reject (a settled transport promise settles exactly once). -/
inductive Transport where
  | syncThrow (e : RawError)
  | resolves (r : TransportResponse)
  | rejects (e : RawError)
deriving DecidableEq

/-- The normalized error `{error, status, message, duration}`. -/
structure NormalizedError where
  error : RawError
  status : Nat
  message : String
  duration : Nat
deriving DecidableEq

/-- One settlement of the gateway's promise. -/
inductive Settle where
  | res (body : String)
  | rejNorm (e : NormalizedError)
  | rejRaw (e : RawError)
deriving DecidableEq

/-- The settlements of the promise returned by `CouchDb.request` (lines
65–85; the `CouchDBAdmin.request` chain in `part_003` is identical), given
the transport's behaviour. Promise-executor semantics: a synchronous throw
out of `request(...)` escapes the executor and rejects the promise with the
raw thrown value; the `.then` handler calls `resolve(response.body)`; the
`.catch` handler calls `reject` with the normalized error
(`error.statusCode || 500`, message resolved through `statusCode`).
`elapsed` stands for `Date.now() - startTime`. -/
def CouchDb.requestSettles (options : RequestOptions) (elapsed : Nat)
    (t : Transport) : List Settle :=
  match t with
  | .syncThrow e => [.rejRaw e]
  | .resolves r => [.res r.body]
  | .rejects e =>
    [.rejNorm
      { error := e
        status := jsOrNatD e.statusCode 500
        message := statusCode options.statusCodes e.statusCode
        duration := elapsed }]

/-- `CouchDb.createQueryString` (lines 28–30): `Object.keys(queryObj)`
throws a `TypeError` when `queryObj` is `undefined`. -/
def CouchDb.createQueryString (queryObj : Option QueryObj) : Except String String :=
  match queryObj with
  | none => .error "TypeError: Cannot convert undefined or null to object"
  | some q => .ok (if q.length != 0 then "?" ++ qsStringify q else "")

/-- `CouchDBAdmin.QUERY_KEYS_JSON` (`part_003` line 12). -/
def QUERY_KEYS_JSON : List String := ["key", "keys", "startkey", "endkey"]

/-- The `forEach` in `CouchDBAdmin.createQueryString`: replace the value of
each structured key that is present by its `JSON.stringify`. -/
def jsonifyQueryKeys (q : QueryObj) : QueryObj :=
  QUERY_KEYS_JSON.foldl
    (fun acc k =>
      if (acc.find? (fun p => p.1 == k)).isSome then
        acc.map (fun p => if p.1 == k then (p.1, QVal.str (jsonStringifyQVal p.2)) else p)
      else acc)
    q

/-- `CouchDBAdmin.createQueryString` (`part_003` lines 21–29):
`Object.assign({}, queryObj)` turns an `undefined` argument into `{}` (no
throw), then the structured keys are JSON-serialized before
stringification. -/
def CouchDBAdmin.createQueryString (queryObj : Option QueryObj) : String :=
  let obj := jsonifyQueryKeys (queryObj.getD [])
  if obj.length != 0 then "?" ++ qsStringify obj else ""

/-- What a public method does up to the point of dispatch: return an
already-rejected promise, throw synchronously, or hand a descriptor to
`this.request`. -/
inductive OpCall where
  | earlyReject (msg : String)
  | thrown (e : String)
  | dispatch (options : RequestOptions)
deriving DecidableEq

/-- The configuration-error rejection message. -/
def noDbMsg : String := "No DB specified. Set defaultDatabase or specify one"

/-- The validation-error rejection message of `createDatabase`. -/
def invalidDbMsg : String :=
  "Invalid DB Name: http://docs.couchdb.org/en/latest/api/database/common.html#put--db"

/-- `dbName = dbName || this.defaultDatabase; if (!dbName) ...`: the
resolved, non-falsy database name, if any. -/
def resolveDb (c : Client) (dbName : Option String) : Option String :=
  match jsOrStr dbName c.defaultDatabase with
  | none => none
  | some s => if s = "" then none else some s

/-- One character of the database-name regular expression's class
(lowercase letters, digits, underscore, dollar, parentheses, plus, slash,
hyphen). -/
def dbNameChar (c : Char) : Bool :=
  c.isLower || c.isDigit || c = '_' || c = '$' || c = '(' || c = ')' ||
    c = '+' || c = '/' || c = '-'

/-- The anchored database-name regular expression of `createDatabase`
matches: a lowercase letter followed by characters of the allowed class. -/
def dbNameMatches (s : String) : Bool :=
  match s.data with
  | [] => false
  | c :: rest => c.isLower && rest.all dbNameChar

/-- `CouchDb.getInfo` (lines 101–107): the descriptor supplies no `path`. -/
def CouchDb.getInfo : RequestOptions :=
  { statusCodes := some [(200, "OK - Request completed successfully")] }

/-- `CouchDb.getDatabase` (lines 130–143). -/
def CouchDb.getDatabase (c : Client) (dbName : Option String) : OpCall :=
  match resolveDb c dbName with
  | none => .earlyReject noDbMsg
  | some db =>
    .dispatch
      { path := some (encodeURIComponent db)
        statusCodes := some
          [(200, "OK - Request completed successfully"),
           (401, "Unauthorized - CouchDB Server Administrator privileges required"),
           (404, "Not Found – Requested database not found")] }

/-- `CouchDb.createDatabase` (lines 150–168): database-name defaulting, then
the naming-pattern validation, then dispatch. -/
def CouchDb.createDatabase (c : Client) (dbName : Option String) : OpCall :=
  match resolveDb c dbName with
  | none => .earlyReject noDbMsg
  | some db =>
    if !dbNameMatches db then .earlyReject invalidDbMsg
    else
      .dispatch
        { path := some (encodeURIComponent db)
          method := some "PUT"
          statusCodes := some
            [(201, "Created - Database created successfully"),
             (400, "Bad Request - Invalid database name"),
             (401, "Unauthorized - CouchDB Server Administrator privileges required"),
             (412, "Precondition Failed - Database already exists")] }

/-- `CouchDBAdmin.createDatabase` (`part_003` lines 115–129): the name is a
required argument (no defaulting), validated against the same pattern. -/
def CouchDBAdmin.createDatabase (dbName : String) : OpCall :=
  if !dbNameMatches dbName then .earlyReject invalidDbMsg
  else
    .dispatch
      { path := some (encodeURIComponent dbName)
        method := some "PUT"
        statusCodes := some
          [(201, "Created - Database created successfully"),
           (400, "Bad Request - Invalid database name"),
           (401, "Unauthorized - CouchDB Server Administrator privileges required"),
           (412, "Precondition Failed - Database already exists")] }

/-- `CouchDb.checkDatabaseExists` (lines 175–200): the inner request it
wraps. -/
def CouchDb.checkDatabaseExists (c : Client) (dbName : Option String) : OpCall :=
  match resolveDb c dbName with
  | none => .earlyReject noDbMsg
  | some db =>
    .dispatch
      { path := some (encodeURIComponent db)
        method := some "HEAD"
        statusCodes := some
          [(200, "OK - Database exists"),
           (401, "Unauthorized - CouchDB Server Administrator privileges required"),
           (404, "Not Found – Requested database not found")] }

/-- `CouchDb.checkDocumentExists` (lines 377–406): the inner request it
wraps. -/
def CouchDb.checkDocumentExists (c : Client) (dbName : Option String)
    (docId : String) : OpCall :=
  match resolveDb c dbName with
  | none => .earlyReject noDbMsg
  | some db =>
    .dispatch
      { path := some (encodeURIComponent db ++ "/" ++ encodeURIComponent docId)
        method := some "HEAD"
        statusCodes := some
          [(200, "OK - Document exists"),
           (304, "Not Modified - Document wasn’t modified since specified revision"),
           (401, "Unauthorized - Read privilege required"),
           (404, "Not Found - Document not found")] }

/-- One settlement of the boolean promise built by
`checkDatabaseExists`/`checkDocumentExists`. -/
inductive ExistsSettle where
  | resolvedTrue
  | resolvedFalse
  | rejected (v : Settle)
deriving DecidableEq

/-- The `.then`/`.catch` pair shared verbatim by `checkDatabaseExists` and
`checkDocumentExists`: any resolution resolves `true`; a rejection whose
`error.error.statusCode === 404` resolves `false`; every other rejection is
re-rejected unchanged (a raw rejection value has no `error` property, so
the guard fails on it). -/
def existsCheckHandler : Settle → ExistsSettle
  | .res _ => .resolvedTrue
  | .rejNorm n =>
    if n.error.statusCode == some 404 then .resolvedFalse else .rejected (.rejNorm n)
  | .rejRaw e => .rejected (.rejRaw e)

/-- The settlements of an existence-check call, given the transport
behaviour of the gateway request it wraps. -/
def existsCheckSettles (options : RequestOptions) (elapsed : Nat)
    (t : Transport) : List ExistsSettle :=
  (CouchDb.requestSettles options elapsed t).map existsCheckHandler

/-- The POST branch of `CouchDb.createDocument` (create without explicit
id, lines 477–491). -/
def CouchDb.createDocumentNoId (db doc : String) : RequestOptions :=
  { path := some (encodeURIComponent db)
    method := some "POST"
    postData := some doc
    statusCodes := some
      [(201, "Created – Document created and stored on disk"),
       (202, "Accepted – Document data accepted, but not yet stored on disk"),
       (400, "Bad Request – Invalid database name"),
       (401, "Unauthorized – Write privileges required"),
       (404, "Not Found – Database doesn’t exists"),
       (409, "Conflict – A Conflicting Document with same ID already exists")] }

/-- `CouchDb.createDocument` (lines 449–491): PUT with a
`content-type: application/json` header when a (truthy) `docId` is
supplied, POST otherwise. -/
def CouchDb.createDocument (c : Client) (dbName : Option String) (doc : String)
    (docId : Option String) : OpCall :=
  match resolveDb c dbName with
  | none => .earlyReject noDbMsg
  | some db =>
    match docId with
    | some d =>
      if d = "" then .dispatch (CouchDb.createDocumentNoId db doc)
      else
        .dispatch
          { path := some (encodeURIComponent db ++ "/" ++ encodeURIComponent d)
            method := some "PUT"
            postData := some doc
            headers := some [("content-type", "application/json")]
            statusCodes := some
              [(201, "Created – Document created and stored on disk"),
               (202, "Accepted – Document data accepted, but not yet stored on disk"),
               (400, "Bad Request – Invalid request body or parameters"),
               (401, "Unauthorized – Write privileges required"),
               (404, "Not Found – Specified database or document ID doesn’t exists"),
               (409, "Conflict – Document with the specified ID already exists or specified revision is not latest for target document")] }
    | none => .dispatch (CouchDb.createDocumentNoId db doc)

/-- `CouchDb.copyDocument` (lines 415–440): after database-name resolution,
requires truthy `docId` and `newDocId`, and supplies the `Destination`
header. -/
def CouchDb.copyDocument (c : Client) (dbName : Option String)
    (docId newDocId : String) : OpCall :=
  match resolveDb c dbName with
  | none => .earlyReject noDbMsg
  | some db =>
    if docId != "" && newDocId != "" then
      .dispatch
        { path := some (encodeURIComponent db ++ "/" ++ encodeURIComponent docId)
          method := some "COPY"
          headers := some [("Destination", newDocId)]
          statusCodes := some
            [(201, "Created – Document created and stored on disk"),
             (202, "Accepted – Document data accepted, but not yet stored on disk"),
             (400, "Bad Request – Invalid request body or parameters"),
             (401, "Unauthorized – Write privileges required"),
             (404, "Not Found – Specified database or document ID doesn’t exists"),
             (409, "Conflict – Document with the specified ID already exists or specified revision is not latest for target document")] }
    else .earlyReject "Invalid docId or newDocId"

/-- `CouchDb.getDocuments` (lines 324–340): database-name resolution, then
`createQueryString(options.options)` — which throws when the query-options
field was omitted — then dispatch to `{db}/_all_docs{queryStr}`. -/
def CouchDb.getDocuments (c : Client) (dbName : Option String)
    (queryOptions : Option QueryObj) : OpCall :=
  match resolveDb c dbName with
  | none => .earlyReject noDbMsg
  | some db =>
    match CouchDb.createQueryString queryOptions with
    | .error e => .thrown e
    | .ok qs =>
      .dispatch
        { path := some (encodeURIComponent db ++ "/_all_docs" ++ qs)
          statusCodes := some
            [(200, "OK - Request completed successfully"),
             (401, "Unauthorized - Read privilege required")] }

/-- `CouchDb.getDocument` (lines 349–369). -/
def CouchDb.getDocument (c : Client) (dbName : Option String) (docId : String)
    (queryOptions : Option QueryObj) : OpCall :=
  match resolveDb c dbName with
  | none => .earlyReject noDbMsg
  | some db =>
    match CouchDb.createQueryString queryOptions with
    | .error e => .thrown e
    | .ok qs =>
      .dispatch
        { path := some (encodeURIComponent db ++ "/" ++ encodeURIComponent docId ++ qs)
          statusCodes := some
            [(200, "OK - Request completed successfully"),
             (304, "Not Modified - Document wasn’t modified since specified revision"),
             (400, "Bad Request - The format of the request or revision was invalid"),
             (401, "Unauthorized - Read privilege required"),
             (404, "Not Found - Document not found")] }

/-- `CouchDb.getDesignDocument` (lines 579–599). -/
def CouchDb.getDesignDocument (c : Client) (dbName : Option String)
    (docId : String) (queryOptions : Option QueryObj) : OpCall :=
  match resolveDb c dbName with
  | none => .earlyReject noDbMsg
  | some db =>
    match CouchDb.createQueryString queryOptions with
    | .error e => .thrown e
    | .ok qs =>
      .dispatch
        { path := some (encodeURIComponent db ++ "/_design/" ++ encodeURIComponent docId ++ qs)
          statusCodes := some
            [(200, "OK - Request completed successfully"),
             (304, "Not Modified - Document wasn’t modified since specified revision"),
             (400, "Bad Request - The format of the request or revision was invalid"),
             (401, "Unauthorized - Read privilege required"),
             (404, "Not Found - Document not found")] }

/-- `CouchDb.getDocumentView` (lines 692–709). -/
def CouchDb.getDocumentView (c : Client) (dbName : Option String)
    (docId viewName : String) (queryOptions : Option QueryObj) : OpCall :=
  match resolveDb c dbName with
  | none => .earlyReject noDbMsg
  | some db =>
    match CouchDb.createQueryString queryOptions with
    | .error e => .thrown e
    | .ok qs =>
      .dispatch
        { path := some (encodeURIComponent db ++ "/_design/" ++ encodeURIComponent docId
            ++ "/_view/" ++ encodeURIComponent viewName ++ qs)
          statusCodes := some [(200, "OK - Request completed successfully")] }

/-- A convenient concrete client: `new CouchDb({})`. -/
def defaultClient : Client := CouchDb.init {}

/-- The descriptor a method handed to `this.request`, if it dispatched
at all. -/
def dispatched : OpCall → Option RequestOptions
  | .dispatch d => some d
  | _ => none

/-- Whether a settlement is of the documented shape: a resolution with the
decoded body, or a rejection with the normalized error object. -/
def settleNormalizedShape : Settle → Bool
  | .res _ => true
  | .rejNorm _ => true
  | .rejRaw _ => false

/-! ## Theorems -/

/-- Lookup in the `Object.assign` merge of two tables is lookup in the
override table, falling back to the base table. -/
theorem objGet_append (T1 T2 : List (Nat × String)) (n : Nat) :
    objGet (T1 ++ T2) n = (objGet T2 n).or (objGet T1 n) := by
  unfold objGet
  rw [List.reverse_append, List.find?_append]
  cases h : T2.reverse.find? (fun p => p.1 == n) <;> simp [h, Option.or]

/-- Claim C1 (code_bug evaluation): at the failing input, the request
dispatched by `copyDocument` (and by `createDocument` with an explicit id)
carries exactly the two baseline headers: the merge inside `request` is
guarded by `options.headers.length > 0`, which reads the `length` property
of a plain object (`undefined`), so the caller's `Destination` and
`content-type` headers never reach the outgoing request. -/
theorem copyDocument_headers_dropped :
    ((dispatched (CouchDb.copyDocument defaultClient (some "mydb") "a" "b")).map
      (fun d => (CouchDb.buildRequest defaultClient d).headers)) = some defaultHeaders ∧
    ((dispatched (CouchDb.createDocument defaultClient (some "mydb") "doc" (some "id"))).map
      (fun d => (CouchDb.buildRequest defaultClient d).headers)) = some defaultHeaders ∧
    strObjGet defaultHeaders "Destination" = none ∧
    strObjGet defaultHeaders "content-type" = none := by decide

/-- Claim C2 counterexample: the `CouchDb` class's query-string composition
does not JSON-serialize the `keys` value — `{keys: ["a","b"]}` composes to
`?keys=a&keys=b` (the default repeated-key array format), which differs from
the URL-encoded JSON array literal the `CouchDBAdmin` composition produces,
and contains no `%5B` (no URL-encoded `[`) at all, hence no encoded JSON
array literal (the last conjunct says `"%5B"` occurs nowhere in it). -/
theorem couchdb_createQueryString_not_json :
    CouchDb.createQueryString (some [("keys", QVal.arr ["a", "b"])])
      = Except.ok "?keys=a&keys=b" ∧
    CouchDBAdmin.createQueryString (some [("keys", QVal.arr ["a", "b"])])
      = "?keys=%5B%22a%22%2C%22b%22%5D" ∧
    ("?keys=a&keys=b" : String) ≠ "?keys=%5B%22a%22%2C%22b%22%5D" ∧
    ¬ ("%5B" : String).data <:+: ("?keys=a&keys=b" : String).data :=
  ⟨rfl, by decide, by decide, by decide⟩

/-- Claim C2 (amended): only the `CouchDBAdmin` implementation
JSON-serializes the structured keys (`key`, `keys`, `startkey`, `endkey`)
before URL encoding; its serialization step replaces each present
structured key's value by its `JSON.stringify`, and on the example mapping
it composes the URL-encoded JSON array literal. -/
theorem admin_structured_keys_json_serialized :
    (∀ k, k ∈ QUERY_KEYS_JSON → ∀ v : QVal,
      jsonifyQueryKeys [(k, v)] = [(k, QVal.str (jsonStringifyQVal v))]) ∧
    CouchDBAdmin.createQueryString (some [("keys", QVal.arr ["a", "b"])])
      = "?keys=%5B%22a%22%2C%22b%22%5D" := by
  refine ⟨?_, by decide⟩
  intro k hk v
  simp only [QUERY_KEYS_JSON, List.mem_cons, List.not_mem_nil, or_false] at hk
  rcases hk with rfl | rfl | rfl | rfl <;> rfl

/-- Claim C2 witness: the serialization step at the example input. -/
theorem admin_structured_keys_json_serialized_witness :
    jsonifyQueryKeys [("keys", QVal.arr ["a", "b"])]
      = [("keys", QVal.str "[\"a\",\"b\"]")] :=
  admin_structured_keys_json_serialized.1 "keys" (by decide) (QVal.arr ["a", "b"])

/-- Claim C3 counterexample: with the override table `{200: ""}`, the
resolver returns `"unknown status"`, not the override value `""` — the `||`
fallback also triggers on a present-but-empty message, so the resolved
message does not always equal `T2[S]` when `S` is a key of `T2`. -/
theorem statusCode_empty_override_counterexample :
    statusCodeWith [(200, "OK")] [(200, "")] (some 200) = "unknown status" ∧
    ("unknown status" : String) ≠ "" := by decide

/-- Claim C3 (amended): the resolved message equals `T2[S]` when `S` is a
key of `T2` with a non-empty message; is `"unknown status"` when `T2[S]` is
present but empty (it does NOT fall back to `T1`); equals `T1[S]` when `S`
is absent from `T2` and present in `T1` with a non-empty message; and is
`"unknown status"` otherwise. -/
theorem statusCode_resolution (T1 T2 : List (Nat × String)) (n : Nat) :
    (∀ m, objGet T2 n = some m → m ≠ "" → statusCodeWith T1 T2 (some n) = m) ∧
    (objGet T2 n = some "" → statusCodeWith T1 T2 (some n) = "unknown status") ∧
    (∀ m, objGet T2 n = none → objGet T1 n = some m → m ≠ "" →
      statusCodeWith T1 T2 (some n) = m) ∧
    (objGet T2 n = none → objGet T1 n = some "" →
      statusCodeWith T1 T2 (some n) = "unknown status") ∧
    (objGet T2 n = none → objGet T1 n = none →
      statusCodeWith T1 T2 (some n) = "unknown status") := by
  refine ⟨?_, ?_, ?_, ?_, ?_⟩
  · intro m h2 hne
    simp [statusCodeWith, objGet_append, h2, Option.or, hne]
  · intro h2
    simp [statusCodeWith, objGet_append, h2, Option.or]
  · intro m h2 h1 hne
    simp [statusCodeWith, objGet_append, h2, h1, Option.or, hne]
  · intro h2 h1
    simp [statusCodeWith, objGet_append, h2, h1, Option.or]
  · intro h2 h1
    simp [statusCodeWith, objGet_append, h2, h1, Option.or]

/-- Claim C3 witness: a non-empty override wins at a concrete input. -/
theorem statusCode_resolution_witness :
    statusCodeWith [(200, "OK")] [(200, "Custom")] (some 200) = "Custom" :=
  (statusCode_resolution [(200, "OK")] [(200, "Custom")] 200).1 "Custom" (by decide)
    (by decide)

/-- Claim C4: for the existence checks (`checkDatabaseExists` and
`checkDocumentExists`, which share the `.then`/`.catch` logic embedded as
`existsCheckHandler` and both dispatch HEAD requests), a remote 404
resolves the boolean promise to `false`, a transport resolution (remote
200) resolves it to `true`, and any other failing remote status rejects it
with the normalized error object. -/
theorem existsCheck_resolution (options : RequestOptions) (elapsed : Nat) :
    (∀ e : RawError, e.statusCode = some 404 →
      existsCheckSettles options elapsed (.rejects e) = [.resolvedFalse]) ∧
    (∀ r : TransportResponse,
      existsCheckSettles options elapsed (.resolves r) = [.resolvedTrue]) ∧
    (∀ e : RawError, ∀ s : Nat, e.statusCode = some s → s ≠ 404 →
      existsCheckSettles options elapsed (.rejects e) =
        [.rejected (.rejNorm
          { error := e
            status := jsOrNatD e.statusCode 500
            message := statusCode options.statusCodes e.statusCode
            duration := elapsed })]) ∧
    (∀ c : Client, ∀ dbName : Option String, (resolveDb c dbName).isSome →
      (dispatched (CouchDb.checkDatabaseExists c dbName)).map (·.method)
        = some (some "HEAD")) ∧
    (∀ c : Client, ∀ dbName : Option String, ∀ docId : String,
      (resolveDb c dbName).isSome →
      (dispatched (CouchDb.checkDocumentExists c dbName docId)).map (·.method)
        = some (some "HEAD")) := by
  refine ⟨?_, ?_, ?_, ?_, ?_⟩
  · intro e h
    simp [existsCheckSettles, CouchDb.requestSettles, existsCheckHandler, h]
  · intro r
    simp [existsCheckSettles, CouchDb.requestSettles, existsCheckHandler]
  · intro e s h hs
    simp [existsCheckSettles, CouchDb.requestSettles, existsCheckHandler, h, hs]
  · intro c dbName h
    unfold CouchDb.checkDatabaseExists
    cases hr : resolveDb c dbName with
    | none => rw [hr] at h; simp at h
    | some db => simp [hr, dispatched]
  · intro c dbName docId h
    unfold CouchDb.checkDocumentExists
    cases hr : resolveDb c dbName with
    | none => rw [hr] at h; simp at h
    | some db => simp [hr, dispatched]

/-- Claim C4 witness: a 404 rejection resolves to `false` at a concrete
input. -/
theorem existsCheck_resolution_witness :
    existsCheckSettles {} 0 (.rejects { statusCode := some 404 }) = [.resolvedFalse] :=
  (existsCheck_resolution {} 0).1 { statusCode := some 404 } rfl

/-- Claim C5: every embedded database-scoped operation, invoked with no
database name while the client has no configured default database, returns
the already-rejected configuration-error promise (an `earlyReject`, not a
`dispatch` — no network request is issued). -/
theorem noDb_rejects_synchronously (c : Client) (h : c.defaultDatabase = none)
    (doc docId newDocId viewName : String) (docIdOpt : Option String)
    (q : Option QueryObj) :
    CouchDb.getDatabase c none = .earlyReject noDbMsg ∧
    CouchDb.createDatabase c none = .earlyReject noDbMsg ∧
    CouchDb.checkDatabaseExists c none = .earlyReject noDbMsg ∧
    CouchDb.checkDocumentExists c none docId = .earlyReject noDbMsg ∧
    CouchDb.copyDocument c none docId newDocId = .earlyReject noDbMsg ∧
    CouchDb.createDocument c none doc docIdOpt = .earlyReject noDbMsg ∧
    CouchDb.getDocuments c none q = .earlyReject noDbMsg ∧
    CouchDb.getDocument c none docId q = .earlyReject noDbMsg ∧
    CouchDb.getDesignDocument c none docId q = .earlyReject noDbMsg ∧
    CouchDb.getDocumentView c none docId viewName q = .earlyReject noDbMsg := by
  have hdb : resolveDb c none = none := by simp [resolveDb, jsOrStr, h]
  refine ⟨?_, ?_, ?_, ?_, ?_, ?_, ?_, ?_, ?_, ?_⟩ <;>
    simp [CouchDb.getDatabase, CouchDb.createDatabase, CouchDb.checkDatabaseExists,
      CouchDb.checkDocumentExists, CouchDb.copyDocument, CouchDb.createDocument,
      CouchDb.getDocuments, CouchDb.getDocument, CouchDb.getDesignDocument,
      CouchDb.getDocumentView, hdb]

/-- Claim C5 witness: `getDatabase` on a default-constructed client. -/
theorem noDb_rejects_synchronously_witness :
    CouchDb.getDatabase defaultClient none = .earlyReject noDbMsg :=
  (noDb_rejects_synchronously defaultClient rfl "d" "i" "n" "v" none none).1

/-- Claim C6 counterexample: `getDatabase` invoked with the
pattern-violating name `"Test"` does not reject — it dispatches a network
request (only `createDatabase` validates the naming pattern). -/
theorem getDatabase_invalid_name_still_dispatches :
    dbNameMatches "Test" = false ∧
    (dispatched (CouchDb.getDatabase defaultClient (some "Test"))).isSome = true := by
  decide

/-- Claim C6 (amended): `createDatabase` — in both the `CouchDb` and the
`CouchDBAdmin` implementation, the operation that validates database names
— rejects a (non-empty) name violating the pattern with the validation
error before any dispatch. -/
theorem createDatabase_rejects_invalid_name (c : Client) (n : String)
    (h1 : dbNameMatches n = false) (h2 : n ≠ "") :
    CouchDb.createDatabase c (some n) = .earlyReject invalidDbMsg ∧
    CouchDBAdmin.createDatabase n = .earlyReject invalidDbMsg := by
  constructor
  · simp [CouchDb.createDatabase, resolveDb, jsOrStr, h1, h2]
  · simp [CouchDBAdmin.createDatabase, h1]

/-- Claim C6 witness: `"Test"` is rejected by both implementations. -/
theorem createDatabase_rejects_invalid_name_witness :
    CouchDb.createDatabase defaultClient (some "Test") = .earlyReject invalidDbMsg ∧
    CouchDBAdmin.createDatabase "Test" = .earlyReject invalidDbMsg :=
  createDatabase_rejects_invalid_name defaultClient "Test" (by decide) (by decide)

/-- Claim C7 (code_bug evaluation): `getInfo` supplies no `targetPath`, and
the composed request target is the server root with the literal segment
`/undefined` appended — the template literal interpolates the absent path
as the string `"undefined"` — not the bare server root. -/
theorem getInfo_target_is_not_server_root :
    (CouchDb.buildRequest defaultClient CouchDb.getInfo).uri
      = "http://127.0.0.1:5984/undefined" ∧
    (CouchDb.buildRequest defaultClient CouchDb.getInfo).uri
      ≠ "http://127.0.0.1:5984" := by decide

/-- Claim C8: the `CouchDb` constructor honours a caller-supplied non-zero
port and falls back to 5984 when the port is absent, whereas both
near-duplicate `CouchDBAdmin` constructors assign the fixed port 5984
regardless of the caller-supplied options. -/
theorem port_configuration (o : Connection) :
    (∀ p : Nat, 0 < p → o.port = some p → (CouchDb.init o).port = p) ∧
    (o.port = none → (CouchDb.init o).port = 5984) ∧
    (CouchDBAdmin.init o).port = 5984 ∧
    (CouchDBAdminAlt.init o).port = 5984 := by
  refine ⟨?_, ?_, rfl, rfl⟩
  · intro p hp hport
    have hpz : p ≠ 0 := by omega
    simp [CouchDb.init, jsOrNatD, hport, hpz]
  · intro hport
    simp [CouchDb.init, jsOrNatD, hport]

/-- Claim C8 witness: a concrete caller-supplied port is honoured by
`CouchDb` (and ignored by the admin constructors). -/
theorem port_configuration_witness :
    (CouchDb.init { port := some 1234 }).port = 1234 ∧
    (CouchDBAdmin.init { port := some 1234 }).port = 5984 :=
  ⟨(port_configuration { port := some 1234 }).1 1234 (by decide) rfl,
   (port_configuration { port := some 1234 }).2.2.1⟩

/-- Claim C9 counterexample: when the transport throws synchronously, the
gateway promise rejects with the RAW thrown value (the `Promise`
constructor converts the executor's throw into a rejection before the
`.catch` normalizer is ever attached to it), which is not of the
documented resolve-with-body / reject-with-normalized-error shape. -/
theorem request_sync_throw_settles_raw :
    CouchDb.requestSettles {} 0 (.syncThrow { tag := "boom" })
      = [.rejRaw { tag := "boom" }] ∧
    settleNormalizedShape (.rejRaw { tag := "boom" }) = false := by decide

/-- Claim C9 (amended): every gateway call settles exactly once; a
transport resolution settles it with the decoded body, an asynchronous
transport rejection settles it with the normalized error (status
`error.statusCode || 500`, message resolved through the status table), and
a synchronous transport throw settles it — still exactly once — with the
raw thrown value rather than the normalized shape. -/
theorem request_settles_exactly_once (options : RequestOptions) (elapsed : Nat)
    (t : Transport) :
    (CouchDb.requestSettles options elapsed t).length = 1 ∧
    (∀ r, t = .resolves r →
      CouchDb.requestSettles options elapsed t = [.res r.body]) ∧
    (∀ e, t = .rejects e →
      CouchDb.requestSettles options elapsed t =
        [.rejNorm { error := e, status := jsOrNatD e.statusCode 500,
                    message := statusCode options.statusCodes e.statusCode,
                    duration := elapsed }]) ∧
    (∀ e, t = .syncThrow e →
      CouchDb.requestSettles options elapsed t = [.rejRaw e]) := by
  refine ⟨by cases t <;> rfl, ?_, ?_, ?_⟩
  all_goals intro x hx
  all_goals subst hx
  all_goals rfl

/-- Claim C9 witness: a transport resolution settles once with the body. -/
theorem request_settles_exactly_once_witness :
    CouchDb.requestSettles {} 0 (.resolves { statusCode := 200, body := "ok" })
      = [.res "ok"] :=
  (request_settles_exactly_once {} 0 (.resolves { statusCode := 200, body := "ok" })).2.1
    { statusCode := 200, body := "ok" } rfl

/-- Claim C10: each read operation taking an optional query-options object
(`getDocuments`, `getDocument`, `getDesignDocument`, `getDocumentView`),
invoked with that field omitted while the database name resolves, throws
the synchronous `TypeError` out of `createQueryString`
(`Object.keys(undefined)`) instead of returning a promise; only an
explicitly empty object yields the empty query string (the final conjunct:
the dispatched `_all_docs` path carries no `?`). -/
theorem omitted_query_options_throw (c : Client) (dbName : Option String)
    (db : String) (h : resolveDb c dbName = some db) (docId viewName : String) :
    CouchDb.getDocuments c dbName none
      = .thrown "TypeError: Cannot convert undefined or null to object" ∧
    CouchDb.getDocument c dbName docId none
      = .thrown "TypeError: Cannot convert undefined or null to object" ∧
    CouchDb.getDesignDocument c dbName docId none
      = .thrown "TypeError: Cannot convert undefined or null to object" ∧
    CouchDb.getDocumentView c dbName docId viewName none
      = .thrown "TypeError: Cannot convert undefined or null to object" ∧
    CouchDb.createQueryString (some ([] : QueryObj)) = .ok "" ∧
    (dispatched (CouchDb.getDocuments c dbName (some []))).map (·.path)
      = some (some (encodeURIComponent db ++ "/_all_docs")) := by
  refine ⟨?_, ?_, ?_, ?_, rfl, ?_⟩ <;>
    simp [CouchDb.getDocuments, CouchDb.getDocument, CouchDb.getDesignDocument,
      CouchDb.getDocumentView, CouchDb.createQueryString, h, dispatched, qsStringify,
      sortByKey]

/-- Claim C10 witness: `getDocuments` with the options field omitted throws
at a concrete input. -/
theorem omitted_query_options_throw_witness :
    CouchDb.getDocuments defaultClient (some "mydb") none
      = .thrown "TypeError: Cannot convert undefined or null to object" :=
  (omitted_query_options_throw defaultClient (some "mydb") "mydb" (by decide) "d" "v").1
